import Mathlib

/-
  Verification development for the budget-manager application (src/app.py).

  The application keeps one relational table `transactions`, inserts rows into
  it, reads them all back ordered by date descending, and derives aggregate
  figures (totals by type, expense sums grouped by day and by category).
  The embedding below models the database state explicitly: the list of
  tables (for the CREATE TABLE IF NOT EXISTS logic of init_db), the SERIAL
  id sequence, the stored rows, and the st.cache_data cache wrapping
  get_all_transactions.  Dates are modelled as natural numbers (ordinal
  days), NUMERIC amounts as rationals.
-/

namespace Budget

/-- One stored row of the `transactions` table, as created by the
INSERT in add_transaction plus the SERIAL-assigned id. -/
structure Tx where
  id : Nat
  date : Nat
  type : String
  category : String
  amount : Rat
  description : String
deriving DecidableEq

/-- One record returned by the SELECT in get_all_transactions, which lists
exactly the five columns date, type, category, amount, description. -/
structure TxRecord where
  date : Nat
  type : String
  category : String
  amount : Rat
  description : String
deriving DecidableEq

/-- A relation of the database: its name and column list. -/
structure TableDef where
  name : String
  cols : List String
deriving DecidableEq

/-- The table created by init_db:
`transactions(id, date, type, category, amount, description)`. -/
def transactionsTable : TableDef :=
  { name := "transactions",
    cols := ["id", "date", "type", "category", "amount", "description"] }

/-- Database-plus-cache state: the existing relations, the SERIAL sequence
value for the next id, the stored rows, and the st.cache_data cache of
get_all_transactions (cleared by st.cache_data.clear in add_transaction). -/
structure DBState where
  tables : List TableDef
  nextId : Nat
  rows : List Tx
  cache : Option (List TxRecord)
deriving DecidableEq

/-- init_db (src/app.py lines 29 to 47): CREATE TABLE IF NOT EXISTS
transactions; when a relation named transactions already exists nothing
happens, otherwise the relation is created. -/
def init_db (s : DBState) : DBState :=
  if s.tables.any (fun t => t.name = "transactions") then s
  else { s with tables := s.tables ++ [transactionsTable] }

/-- Projection performed by the SELECT column list of get_all_transactions:
date, type, category, amount, description - the id column is not selected. -/
def projTx (r : Tx) : TxRecord :=
  { date := r.date, type := r.type, category := r.category,
    amount := r.amount, description := r.description }

/-- The ORDER BY date DESC comparison: a row may precede another exactly
when its date is at least the other's date. -/
def dateDesc (a b : TxRecord) : Prop := b.date ≤ a.date

instance : DecidableRel dateDesc := fun a b => Nat.decLe b.date a.date

instance : IsTotal TxRecord dateDesc :=
  ⟨fun a b => Nat.le_total b.date a.date⟩

instance : IsTrans TxRecord dateDesc :=
  ⟨fun _ _ _ hab hbc => Nat.le_trans hbc hab⟩

/-- The query issued by get_all_transactions:
SELECT date, type, category, amount, description FROM transactions
ORDER BY date DESC. -/
def queryAll (s : DBState) : List TxRecord :=
  List.insertionSort dateDesc (s.rows.map projTx)

/-- add_transaction (src/app.py lines 50 to 67): INSERT the given values
(the SERIAL column assigns the next id), commit, then st.cache_data.clear.
The Python function has no return statement, so it returns None. -/
def add_transaction (date : Nat) (type : String) (category : String)
    (amount : Rat) (description : String) (s : DBState) :
    DBState × Option Nat :=
  ({ s with
      rows := s.rows ++
        [{ id := s.nextId, date := date, type := type, category := category,
           amount := amount, description := description }],
      nextId := s.nextId + 1,
      cache := none },
   none)

/-- get_all_transactions (src/app.py lines 68 to 73): the st.cache_data
wrapper returns the cached result when one exists; otherwise it runs the
query and caches the result. -/
def get_all_transactions (s : DBState) : DBState × List TxRecord :=
  match s.cache with
  | some v => (s, v)
  | none => ({ s with cache := some (queryAll s) }, queryAll s)

/-- Sum of the amount column of a list of rows (pandas Series.sum). -/
def sumAmounts (l : List Tx) : Rat := (l.map (fun r => r.amount)).sum

/-- total_income (src/app.py line 106): sum of amount over the rows whose
type column equals Income. -/
def total_income (txs : List Tx) : Rat :=
  sumAmounts (txs.filter (fun r => r.type = "Income"))

/-- total_expenses (src/app.py line 107): sum of amount over the rows whose
type column equals Expense. -/
def total_expenses (txs : List Tx) : Rat :=
  sumAmounts (txs.filter (fun r => r.type = "Expense"))

/-- net_savings (src/app.py line 108): total_income minus total_expenses. -/
def net_savings (txs : List Tx) : Rat :=
  total_income txs - total_expenses txs

/-- The generic per-type total the two totals instantiate: sum of amount
over the rows whose type equals the given one. -/
def totalByType (txs : List Tx) (ty : String) : Rat :=
  sumAmounts (txs.filter (fun r => r.type = ty))

/-- expenses_df (src/app.py line 120): the rows whose type equals Expense. -/
def expensesOf (txs : List Tx) : List Tx :=
  txs.filter (fun r => r.type = "Expense")

/-- expenses_by_day (src/app.py line 132): pandas groupby over the date of
the Expense rows with sum of amount; groupby sorts the group keys
ascending, one output row per distinct key. -/
def expenses_by_day (txs : List Tx) : List (Nat × Rat) :=
  (List.insertionSort (fun a b : Nat => a ≤ b)
      ((expensesOf txs).map (fun r => r.date)).dedup).map
    (fun d => (d, sumAmounts ((expensesOf txs).filter (fun r => r.date = d))))

/-- The aggregation px.pie performs on expenses_df (src/app.py lines 122 to
128) with names set to category and values set to amount: values are summed
per distinct category, keys in order of first appearance. -/
def expenses_by_category (txs : List Tx) : List (String × Rat) :=
  (((expensesOf txs).map (fun r => r.category)).dedup).map
    (fun c =>
      (c, sumAmounts ((expensesOf txs).filter (fun r => r.category = c))))

/-- The options of the type selectbox (src/app.py line 82). -/
def typeChoices : List String := ["Income", "Expense"]

/-- The value produced by the amount widget (src/app.py line 92):
st.number_input with min_value set to 0.01 never yields a value below
that minimum. -/
def form_amount (raw : Rat) : Rat := if raw < 1 / 100 then 1 / 100 else raw

/-- transaction_form submission (src/app.py lines 83 to 98): the collected
widget values are passed straight to add_transaction. -/
def transaction_form (date : Nat) (ty : String) (category : String)
    (raw : Rat) (description : String) (s : DBState) :
    DBState × Option Nat :=
  add_transaction date ty category (form_amount raw) description s

/-- The cache-coherence invariant every reachable state satisfies: the
st.cache_data cache is empty or holds exactly the current query result. -/
def CacheConsistent (s : DBState) : Prop :=
  s.cache = none ∨ s.cache = some (queryAll s)

/-- A freshly initialised empty database. -/
def dbEmpty : DBState :=
  { tables := [transactionsTable], nextId := 1, rows := [], cache := none }

/-- A database with no tables at all (state before the first init_db). -/
def dbNoTable : DBState :=
  { tables := [], nextId := 1, rows := [], cache := none }

/-- A sample stored row. -/
def txA : Tx :=
  { id := 1, date := 5, type := "Income", category := "Salary",
    amount := 100, description := "" }

/-- Another sample stored row, with a later date. -/
def txB : Tx :=
  { id := 2, date := 7, type := "Expense", category := "Food",
    amount := 30, description := "x" }

/-- A database holding the two sample rows. -/
def dbTwo : DBState :=
  { tables := [transactionsTable], nextId := 3, rows := [txA, txB],
    cache := none }

/-- Sample data for C7: two Expense rows, the later date first. -/
def exDays : List Tx :=
  [{ id := 1, date := 2, type := "Expense", category := "Food",
     amount := 10, description := "" },
   { id := 2, date := 1, type := "Expense", category := "Food",
     amount := 5, description := "" }]

/-- Sample data for C8: Expense rows Food 20, Food 5 and Transport 15. -/
def exCats : List Tx :=
  [{ id := 1, date := 1, type := "Expense", category := "Food",
     amount := 20, description := "" },
   { id := 2, date := 1, type := "Expense", category := "Food",
     amount := 5, description := "" },
   { id := 3, date := 1, type := "Expense", category := "Transport",
     amount := 15, description := "" }]

/-- Renaming every stored id. -/
def remapIds (f : Nat → Nat) (s : DBState) : DBState :=
  { s with rows := s.rows.map (fun r => { r with id := f r.id }) }

/-- C1 counterexample: neither an amount of 0 (type Income) nor a negative
amount together with a type outside the enumeration (Refund) makes
add_transaction fail with a validation error; both calls return the usual
None and write a row, so the stored state changes. -/
theorem C1_counterexample :
    (add_transaction 1 ("Income") ("Salary") 0 ("") dbEmpty).1.rows.length
        = dbEmpty.rows.length + 1 ∧
    (add_transaction 1 ("Income") ("Salary") 0 ("") dbEmpty).2 = none ∧
    (add_transaction 1 ("Refund") ("Misc") (-5) ("") dbEmpty).1.rows.length
        = dbEmpty.rows.length + 1 ∧
    (add_transaction 1 ("Refund") ("Misc") (-5) ("") dbEmpty).2 = none := by
  exact ⟨rfl, rfl, rfl, rfl⟩

/-- C1 (amended): add_transaction itself performs no validation: for every
type string and every amount, positive or not, it appends exactly the row
it is given and returns None. The only validation lives in the
presentation layer: the amount widget never yields a value below 0.01,
and a type drawn from the selectbox options is Income or Expense, so every
transaction submitted through the form has a strictly positive amount and
a type in that set. -/
theorem C1_no_store_validation (d : Nat) (ty cat : String) (a : Rat)
    (ds : String) (s : DBState) :
    (add_transaction d ty cat a ds s).1.rows
        = s.rows ++
          [{ id := s.nextId, date := d, type := ty, category := cat,
             amount := a, description := ds }] ∧
    (add_transaction d ty cat a ds s).2 = none ∧
    0 < form_amount a ∧
    (ty ∈ typeChoices → ty = "Income" ∨ ty = "Expense") ∧
    (transaction_form d ty cat a ds s).1.rows
        = s.rows ++
          [{ id := s.nextId, date := d, type := ty, category := cat,
             amount := form_amount a, description := ds }] := by
  refine ⟨rfl, rfl, ?_, ?_, rfl⟩
  · unfold form_amount
    split
    · norm_num
    · rename_i h
      push_neg at h
      exact lt_of_lt_of_le (by norm_num) h
  · intro hty
    simpa [typeChoices] using hty

/-- C1 witness: the amended statement concretely - an out-of-enumeration
type with a negative amount is written as given, and a concrete form
submission has a positive amount and an enumerated type. -/
theorem C1_witness :
    (add_transaction 1 ("Refund") ("Misc") (-5) ("") dbEmpty).1.rows
        = dbEmpty.rows ++
          [{ id := dbEmpty.nextId, date := 1, type := "Refund",
             category := "Misc", amount := -5, description := "" }] ∧
    0 < form_amount 5 ∧
    (("Income" : String) = "Income" ∨ ("Income" : String) = "Expense") ∧
    (transaction_form 1 ("Income") ("Salary") 5 ("") dbEmpty).1.rows
        = dbEmpty.rows ++
          [{ id := dbEmpty.nextId, date := 1, type := "Income",
             category := "Salary", amount := form_amount 5,
             description := "" }] :=
  ⟨(C1_no_store_validation 1 ("Refund") ("Misc") (-5) ("") dbEmpty).1,
   (C1_no_store_validation 1 ("Income") ("Salary") 5 ("") dbEmpty).2.2.1,
   (C1_no_store_validation 1 ("Income") ("Salary") 5 ("") dbEmpty).2.2.2.1
     (by decide),
   (C1_no_store_validation 1 ("Income") ("Salary") 5 ("") dbEmpty).2.2.2.2⟩

/-- C2 counterexample: add_transaction does not return the newly assigned
id (which would be 1 on the empty database); it returns None. -/
theorem C2_counterexample :
    ((add_transaction 1 ("Income") ("Salary") 5 ("") dbEmpty).2
        = some dbEmpty.nextId) = False := by
  simp [add_transaction]

/-- C2 (amended): on a well-formed state (all stored ids below the SERIAL
counter) a valid insert assigns the fresh id nextId, which no stored row
carries and which exactly one row of the new state carries, and the
well-formedness is preserved; but the call returns None, not the id. -/
theorem C2_insert_assigns_unique_id (d : Nat) (ty cat : String) (a : Rat)
    (ds : String) (s : DBState) (h : ∀ r ∈ s.rows, r.id < s.nextId) :
    (add_transaction d ty cat a ds s).2 = none ∧
    s.nextId ∉ s.rows.map (fun r => r.id) ∧
    ((add_transaction d ty cat a ds s).1.rows.filter
        (fun r => r.id = s.nextId)).length = 1 ∧
    (∀ r ∈ (add_transaction d ty cat a ds s).1.rows,
        r.id < (add_transaction d ty cat a ds s).1.nextId) := by
  refine ⟨rfl, ?_, ?_, ?_⟩
  · intro hmem
    rcases List.mem_map.mp hmem with ⟨r, hr, hid⟩
    exact absurd hid (Nat.ne_of_lt (h r hr))
  · have hnil : s.rows.filter (fun r => r.id = s.nextId) = [] := by
      refine List.filter_eq_nil_iff.mpr ?_
      intro r hr
      simpa using Nat.ne_of_lt (h r hr)
    simp [add_transaction, List.filter_append, hnil]
  · intro r hr
    rcases List.mem_append.mp hr with hold | hnew
    · exact Nat.lt_succ_of_lt (h r hold)
    · simp only [List.mem_singleton] at hnew
      subst hnew
      exact Nat.lt_succ_self _

/-- C2 witness: the amended statement at a concrete insert into the empty
database. -/
theorem C2_witness :
    (add_transaction 1 ("Income") ("Salary") 5 ("") dbEmpty).2 = none ∧
    ((add_transaction 1 ("Income") ("Salary") 5 ("") dbEmpty).1.rows.filter
        (fun r => r.id = dbEmpty.nextId)).length = 1 :=
  ⟨(C2_insert_assigns_unique_id 1 ("Income") ("Salary") 5 ("") dbEmpty
      (by simp [dbEmpty])).1,
   (C2_insert_assigns_unique_id 1 ("Income") ("Salary") 5 ("") dbEmpty
      (by simp [dbEmpty])).2.2.1⟩

/-- C3: on a well-formed state (no stored row already carries the fresh id)
an insert followed immediately by a read is coherent: the rows of the new
state carrying the fresh id, projected to the selected columns, are exactly
the inserted record (so it is stored exactly once, all five fields
unchanged, only the id being new); the record is a member of the very next
get_all_transactions result (the insert cleared the cache, so even a stale
cached view cannot hide it); and that result lists exactly the projections
of the stored rows. -/
theorem C3_insert_visible_to_next_read (s : DBState) (d : Nat)
    (ty cat : String) (a : Rat) (ds : String)
    (h : ∀ r ∈ s.rows, r.id ≠ s.nextId) :
    (((add_transaction d ty cat a ds s).1.rows.filter
        (fun r => r.id = s.nextId)).map projTx)
      = [{ date := d, type := ty, category := cat, amount := a,
           description := ds }] ∧
    ({ date := d, type := ty, category := cat, amount := a,
       description := ds } : TxRecord)
      ∈ (get_all_transactions (add_transaction d ty cat a ds s).1).2 ∧
    (get_all_transactions (add_transaction d ty cat a ds s).1).2.Perm
      ((add_transaction d ty cat a ds s).1.rows.map projTx) := by
  have hnil : s.rows.filter (fun r => r.id = s.nextId) = [] := by
    refine List.filter_eq_nil_iff.mpr ?_
    intro r hr
    simpa using h r hr
  have hout : (get_all_transactions (add_transaction d ty cat a ds s).1).2
      = queryAll (add_transaction d ty cat a ds s).1 := rfl
  refine ⟨?_, ?_, ?_⟩
  · simp [add_transaction, List.filter_append, hnil, projTx]
  · rw [hout]
    unfold queryAll
    rw [List.mem_insertionSort]
    exact List.mem_map.mpr
      ⟨_, List.mem_append_right s.rows (List.mem_singleton_self _), rfl⟩
  · rw [hout]
    exact List.perm_insertionSort _ _

/-- C3 witness: a concrete insert into the empty database is stored once
and visible to the immediately following read. -/
theorem C3_witness :
    (((add_transaction 2 ("Expense") ("Food") 10 ("x") dbEmpty).1.rows.filter
        (fun r => r.id = dbEmpty.nextId)).map projTx)
      = [{ date := 2, type := "Expense", category := "Food", amount := 10,
           description := "x" }] ∧
    ({ date := 2, type := "Expense", category := "Food", amount := 10,
       description := "x" } : TxRecord)
      ∈ (get_all_transactions
          (add_transaction 2 ("Expense") ("Food") 10 ("x") dbEmpty).1).2 :=
  ⟨(C3_insert_visible_to_next_read dbEmpty 2 ("Expense") ("Food") 10 ("x")
      (by simp [dbEmpty])).1,
   (C3_insert_visible_to_next_read dbEmpty 2 ("Expense") ("Food") 10 ("x")
      (by simp [dbEmpty])).2.1⟩

/-- C4: on any cache-coherent state, the get_all_transactions result is a
permutation of the projections of all stored rows (a full scan, nothing
filtered out, nothing added) and is sorted by date descending; ties within
a date are left unconstrained. -/
theorem C4_list_all_full_scan_sorted (s : DBState) (h : CacheConsistent s) :
    (get_all_transactions s).2.Perm (s.rows.map projTx) ∧
    List.Sorted dateDesc (get_all_transactions s).2 := by
  have hq : (get_all_transactions s).2 = queryAll s := by
    rcases h with h | h
    · simp [get_all_transactions, h]
    · simp [get_all_transactions, h]
  rw [hq]
  exact ⟨List.perm_insertionSort _ _, List.sorted_insertionSort _ _⟩

/-- C4 witness: the property at a concrete two-row database. -/
theorem C4_witness :
    (get_all_transactions dbTwo).2.Perm (dbTwo.rows.map projTx) ∧
    List.Sorted dateDesc (get_all_transactions dbTwo).2 :=
  C4_list_all_full_scan_sorted dbTwo (Or.inl rfl)

/-- C5: the computed net value is the total over Income transactions minus
the total over Expense transactions; the two per-type sums of the code are
exactly the generic per-type total at Income and at Expense. -/
theorem C5_net_is_income_minus_expenses (txs : List Tx) :
    net_savings txs = totalByType txs ("Income") - totalByType txs ("Expense")
      ∧ total_income txs = totalByType txs ("Income")
      ∧ total_expenses txs = totalByType txs ("Expense") :=
  ⟨rfl, rfl, rfl⟩

/-- Unfolding of the per-type total over a cons cell. -/
theorem totalByType_cons (r : Tx) (l : List Tx) (ty : String) :
    totalByType (r :: l) ty
      = (if r.type = ty then r.amount else 0) + totalByType l ty := by
  by_cases h : r.type = ty <;>
    simp [totalByType, sumAmounts, List.filter_cons, h]

/-- C6: the per-type total is the sum of the amounts of exactly the
matching transactions (written as a sum of pointwise contributions); it is
0 when nothing matches, and on the empty list both the total and the net
are 0 (total functions, no error possible). -/
theorem C6_total_by_type (txs : List Tx) (ty : String) :
    totalByType txs ty
        = (txs.map (fun r => if r.type = ty then r.amount else 0)).sum ∧
    ((∀ r ∈ txs, r.type ≠ ty) → totalByType txs ty = 0) ∧
    totalByType [] ty = 0 ∧
    net_savings [] = 0 := by
  refine ⟨?_, ?_, rfl, ?_⟩
  · induction txs with
    | nil => rfl
    | cons r l ih => rw [totalByType_cons, List.map_cons, List.sum_cons, ih]
  · intro h
    have hnil : txs.filter (fun r => r.type = ty) = [] := by
      refine List.filter_eq_nil_iff.mpr ?_
      intro r hr
      simpa using h r hr
    simp [totalByType, hnil, sumAmounts]
  · simp [net_savings, total_income, total_expenses, sumAmounts]

/-- C6 witness: a list with only an Expense row has Income total 0, and the
empty list has net 0. -/
theorem C6_witness :
    totalByType [txB] ("Income") = 0 ∧ net_savings [] = 0 :=
  ⟨(C6_total_by_type [txB] ("Income")).2.1 (by decide),
   (C6_total_by_type [] ("Income")).2.2.2⟩

/-- The key column of expenses_by_day is the ascending sort of the distinct
dates of the Expense rows. -/
theorem expenses_by_day_keys (txs : List Tx) :
    (expenses_by_day txs).map Prod.fst
      = List.insertionSort (fun a b : Nat => a ≤ b)
          ((expensesOf txs).map (fun r => r.date)).dedup := by
  unfold expenses_by_day
  rw [List.map_map]
  exact List.map_id _

/-- C7: expenses_by_day has strictly ascending dates (hence sorted
ascending with one entry per distinct date), its dates are exactly the
dates occurring among the Expense transactions, and each entry carries the
sum of the amounts of the Expense transactions of its date. -/
theorem C7_expenses_by_day_grouping (txs : List Tx) :
    List.Sorted (fun a b : Nat => a < b)
        ((expenses_by_day txs).map Prod.fst) ∧
    (∀ d : Nat, d ∈ (expenses_by_day txs).map Prod.fst ↔
        ∃ r ∈ txs, r.type = "Expense" ∧ r.date = d) ∧
    (∀ p ∈ expenses_by_day txs,
        p.2 = sumAmounts ((expensesOf txs).filter (fun r => r.date = p.1)))
    := by
  refine ⟨?_, ?_, ?_⟩
  · rw [expenses_by_day_keys]
    have hsorted : List.Sorted (fun a b : Nat => a ≤ b)
        (List.insertionSort (fun a b : Nat => a ≤ b)
          ((expensesOf txs).map (fun r => r.date)).dedup) :=
      List.sorted_insertionSort _ _
    have hnodup : (List.insertionSort (fun a b : Nat => a ≤ b)
        ((expensesOf txs).map (fun r => r.date)).dedup).Nodup :=
      ((List.perm_insertionSort _ _).nodup_iff).mpr (List.nodup_dedup _)
    exact hsorted.lt_of_le hnodup
  · intro d
    rw [expenses_by_day_keys, List.mem_insertionSort, List.mem_dedup,
      List.mem_map]
    constructor
    · rintro ⟨r, hr, hd⟩
      rw [expensesOf, List.mem_filter] at hr
      exact ⟨r, hr.1, by simpa using hr.2, hd⟩
    · rintro ⟨r, hr, hty, hd⟩
      exact ⟨r, List.mem_filter.mpr ⟨hr, by simpa using hty⟩, hd⟩
  · intro p hp
    unfold expenses_by_day at hp
    rcases List.mem_map.mp hp with ⟨d, hd, rfl⟩
    simp

/-- C7 witness: the grouping property at the two-day example; the earlier
date is a key and the key column is strictly ascending. -/
theorem C7_witness :
    List.Sorted (fun a b : Nat => a < b)
        ((expenses_by_day exDays).map Prod.fst) ∧
    (1 : Nat) ∈ (expenses_by_day exDays).map Prod.fst :=
  ⟨(C7_expenses_by_day_grouping exDays).1,
   ((C7_expenses_by_day_grouping exDays).2.1 1).mpr
     ⟨{ id := 2, date := 1, type := "Expense", category := "Food",
        amount := 5, description := "" }, by decide, rfl, rfl⟩⟩

/-- The key column of expenses_by_category is the list of distinct
categories of the Expense rows, in order of first appearance. -/
theorem expenses_by_category_keys (txs : List Tx) :
    (expenses_by_category txs).map Prod.fst
      = ((expensesOf txs).map (fun r => r.category)).dedup := by
  unfold expenses_by_category
  rw [List.map_map]
  exact List.map_id _

/-- C8: expenses_by_category has pairwise distinct keys, its keys are
exactly the categories occurring among the Expense transactions, and each
entry carries the sum of the amounts of the Expense transactions of its
category. -/
theorem C8_expenses_by_category_grouping (txs : List Tx) :
    ((expenses_by_category txs).map Prod.fst).Nodup ∧
    (∀ c : String, c ∈ (expenses_by_category txs).map Prod.fst ↔
        ∃ r ∈ txs, r.type = "Expense" ∧ r.category = c) ∧
    (∀ p ∈ expenses_by_category txs,
        p.2 = sumAmounts ((expensesOf txs).filter
          (fun r => r.category = p.1))) := by
  refine ⟨?_, ?_, ?_⟩
  · rw [expenses_by_category_keys]
    exact List.nodup_dedup _
  · intro c
    rw [expenses_by_category_keys, List.mem_dedup, List.mem_map]
    constructor
    · rintro ⟨r, hr, hc⟩
      rw [expensesOf, List.mem_filter] at hr
      exact ⟨r, hr.1, by simpa using hr.2, hc⟩
    · rintro ⟨r, hr, hty, hc⟩
      exact ⟨r, List.mem_filter.mpr ⟨hr, by simpa using hty⟩, hc⟩
  · intro p hp
    unfold expenses_by_category at hp
    rcases List.mem_map.mp hp with ⟨c, hc, rfl⟩
    simp

/-- C8 witness: at the Food-and-Transport example, the keys are distinct
and both categories appear as keys. -/
theorem C8_witness :
    ((expenses_by_category exCats).map Prod.fst).Nodup ∧
    ("Food" : String) ∈ (expenses_by_category exCats).map Prod.fst ∧
    ("Transport" : String) ∈ (expenses_by_category exCats).map Prod.fst :=
  ⟨(C8_expenses_by_category_grouping exCats).1,
   ((C8_expenses_by_category_grouping exCats).2.1 ("Food")).mpr
     ⟨{ id := 1, date := 1, type := "Expense", category := "Food",
        amount := 20, description := "" }, by decide, rfl, rfl⟩,
   ((C8_expenses_by_category_grouping exCats).2.1 ("Transport")).mpr
     ⟨{ id := 3, date := 1, type := "Expense", category := "Transport",
        amount := 15, description := "" }, by decide, rfl, rfl⟩⟩

/-- C9: init_db is idempotent - running it twice equals running it once;
when a transactions relation already exists nothing changes (no error, no
duplicate relation), and when none exists exactly the transactions relation
with its six columns is appended. -/
theorem C9_init_db_idempotent (s : DBState) :
    init_db (init_db s) = init_db s ∧
    (s.tables.any (fun t => t.name = "transactions") = true →
      init_db s = s) ∧
    (s.tables.any (fun t => t.name = "transactions") = false →
      (init_db s).tables = s.tables ++ [transactionsTable]) := by
  by_cases h : s.tables.any (fun t => t.name = "transactions") = true
  · refine ⟨?_, fun _ => ?_, fun hf => ?_⟩
    · simp [init_db, h]
    · simp [init_db, h]
    · rw [h] at hf
      cases hf
  · have hf := Bool.not_eq_true _ |>.mp h
    refine ⟨?_, fun ht => ?_, fun _ => ?_⟩
    · simp [init_db, hf, List.any_append, transactionsTable]
    · rw [ht] at hf
      cases hf
    · simp [init_db, hf]

/-- C9 witness: starting with no relations, two runs of init_db equal one
run and the transactions relation was created; on a database already
holding it, init_db changes nothing. -/
theorem C9_witness :
    init_db (init_db dbNoTable) = init_db dbNoTable ∧
    (init_db dbNoTable).tables = dbNoTable.tables ++ [transactionsTable] ∧
    init_db dbEmpty = dbEmpty :=
  ⟨(C9_init_db_idempotent dbNoTable).1,
   (C9_init_db_idempotent dbNoTable).2.2 (by decide),
   (C9_init_db_idempotent dbEmpty).2.1 (by decide)⟩

/-- C10: the SELECT of get_all_transactions lists only the five columns
date, type, category, amount, description - the id is not part of the
result: the query result is unchanged under any renaming of the stored
ids, every returned record is the five-field projection of some stored
row, and on an uncached state get_all_transactions returns exactly that
query result. -/
theorem C10_id_not_in_result (s : DBState) (f : Nat → Nat) :
    queryAll (remapIds f s) = queryAll s ∧
    (∀ rec ∈ queryAll s, ∃ row ∈ s.rows, rec = projTx row) ∧
    (get_all_transactions { s with cache := none }).2
      = queryAll { s with cache := none } := by
  refine ⟨?_, ?_, rfl⟩
  · unfold queryAll remapIds
    rw [List.map_map]
    rfl
  · intro rec hrec
    rw [queryAll, List.mem_insertionSort, List.mem_map] at hrec
    rcases hrec with ⟨row, hrow, heq⟩
    exact ⟨row, hrow, heq.symm⟩

/-- C10 witness: on the two-row database, renaming all ids to 0 leaves the
query result unchanged, and the uncached read returns the query result. -/
theorem C10_witness :
    queryAll (remapIds (fun _ => 0) dbTwo) = queryAll dbTwo ∧
    (get_all_transactions { dbTwo with cache := none }).2
      = queryAll { dbTwo with cache := none } :=
  ⟨(C10_id_not_in_result dbTwo (fun _ => 0)).1,
   (C10_id_not_in_result dbTwo (fun _ => 0)).2.2⟩

/-- The cache-coherence invariant holds initially. -/
theorem cacheConsistent_dbEmpty : CacheConsistent dbEmpty :=
  Or.inl rfl

/-- add_transaction preserves the cache-coherence invariant: it clears the
cache. -/
theorem cacheConsistent_add (d : Nat) (ty cat : String) (a : Rat)
    (ds : String) (s : DBState) :
    CacheConsistent (add_transaction d ty cat a ds s).1 :=
  Or.inl rfl

/-- get_all_transactions preserves the cache-coherence invariant: it either
returns the coherent cache or fills the cache with the current query
result. -/
theorem cacheConsistent_get (s : DBState) (h : CacheConsistent s) :
    CacheConsistent (get_all_transactions s).1 := by
  rcases h with hc | hc
  · right
    simp [get_all_transactions, hc, queryAll]
  · right
    simp [get_all_transactions, hc]

end Budget
